import Mathlib

/-!
Verification development for the realpic repository (src/realpic_viewer.js).
The JavaScript source is shallowly embedded: JS numbers are modelled as
rationals, JS strings as lists of characters or Lean strings, absent or
undefined fields as Option, and thrown exceptions as Except. Each definition
mirrors one function of the source file; the source line numbers are given in
the comments.
-/

namespace RP

/-! ## Model of the JavaScript string primitives used by the source -/

/-- Model of the whitespace test used by the JS String.prototype.trim
(restricted to the common whitespace characters). -/
def jsWhitespace (c : Char) : Bool := c == ' ' || c == '\t' || c == '\n' || c == '\r'

/-- Model of JS String.prototype.trim on a character list. -/
def jsTrim (s : List Char) : List Char :=
  ((s.dropWhile jsWhitespace).reverse.dropWhile jsWhitespace).reverse

/-- Model of JS String.prototype.endsWith on character lists. -/
def jsEndsWith (s suf : List Char) : Bool := List.isSuffixOf suf s

/-- Decimal value of a digit list, most significant digit first. -/
def digitsVal (l : List Char) : Nat := l.foldl (fun a c => a * 10 + (c.toNat - 48)) 0

/-- Scanner state produced by the model of the JS parseFloat builtin:
sign, integral digits, fractional digits, number of fractional digits, and
whether any digit was found at all (ok = false models a NaN result). -/
structure FloatScan where
  neg : Bool
  intDigits : Nat
  fracDigits : Nat
  fracLen : Nat
  ok : Bool
deriving DecidableEq

/-- Scanning stage of the parseFloat model: an optional sign, then decimal
digits, then an optional decimal point with more digits; trailing characters
are ignored, exactly as parseFloat ignores them. Exponents and Infinity are
not modelled (no theme dimension string uses them). -/
def jsParseFloatScan (s : List Char) : FloatScan :=
  let signed : Bool × List Char :=
    match s with
    | '-' :: t => (true, t)
    | '+' :: t => (false, t)
    | t => (false, t)
  let intPart := signed.2.takeWhile Char.isDigit
  let rest := signed.2.dropWhile Char.isDigit
  let fracPart :=
    match rest with
    | '.' :: t => t.takeWhile Char.isDigit
    | _ => []
  { neg := signed.1, intDigits := digitsVal intPart, fracDigits := digitsVal fracPart,
    fracLen := fracPart.length, ok := !(intPart.isEmpty && fracPart.isEmpty) }

/-- Model of the JS parseFloat builtin; none models NaN. -/
def jsParseFloat (s : List Char) : Option ℚ :=
  let p := jsParseFloatScan s
  if p.ok then
    some ((if p.neg then (-1 : ℚ) else 1) * ((p.intDigits : ℚ) + (p.fracDigits : ℚ) / 10 ^ p.fracLen))
  else none

/-- JS truthiness of an optional string: absent, null and the empty string
are falsy. -/
def jsTruthyStr : Option String → Bool
  | none => false
  | some s => decide (s ≠ "")

/-- JS truthiness of an optional number: absent, null and 0 are falsy. -/
def jsTruthyNum : Option ℚ → Bool
  | none => false
  | some q => decide (q ≠ 0)

/-- Model of the JS expression (v || d) for an optional string v. -/
def jsOrStr (v : Option String) (d : String) : String :=
  match v with
  | none => d
  | some s => if s = "" then d else s

/-- Model of JS String.prototype.startsWith on Lean strings. -/
def strStartsWith (s p : String) : Bool := List.isPrefixOf p.data s.data

/-- Model of JS String.prototype.endsWith on Lean strings. -/
def strEndsWith (s suf : String) : Bool := List.isSuffixOf suf.data s.data

/-- Model of JS String.prototype.slice with a start index (path.slice 2). -/
def strDrop (s : String) (n : Nat) : String := String.mk (s.data.drop n)

/-! ## Data model (src/realpic_viewer.js, ConfigParser section) -/

/-- A DimensionValue as accepted by RealPic._parseDimension: either a plain
JS number or a JS string. -/
inductive DimValue where
  | num (v : ℚ)
  | str (s : List Char)
deriving DecidableEq

/-- Raw side descriptor as found in an untrusted theme config JSON; none
models an absent (or null or undefined) field. -/
structure RawSide where
  image : Option String := none
  background : Option String := none
  width : Option ℚ := none
  height : Option ℚ := none
deriving DecidableEq

/-- Raw content area entry of an untrusted theme config JSON. -/
structure RawArea where
  area : Option Nat := none
  side : Option String := none
  x : Option DimValue := none
  y : Option DimValue := none
  width : Option DimValue := none
  height : Option DimValue := none
  position : Option String := none
  fit : Option String := none
  style : Option (List (String × String)) := none
deriving DecidableEq

/-- Raw theme descriptor; contentArea = none models an absent field or a
non-array value (both are replaced before _parseContentAreas runs). -/
structure RawConfig where
  front : Option RawSide := none
  back : Option RawSide := none
  contentArea : Option (List RawArea) := none
deriving DecidableEq

/-- Normalized side configuration (output of ConfigParser._parseSideConfig,
src/realpic_viewer.js lines 305 to 319). -/
structure SideConfig where
  image : Option String
  background : String
  width : Option ℚ
  height : Option ℚ
deriving DecidableEq

/-- Normalized content area. The Option fields model JS object fields that
may be left undefined: the two areas synthesized for a missing or empty
contentArea list carry only area and side (source lines 328 to 331), while
areas produced from a supplied list have every field set (lines 334 to 344). -/
structure ContentArea where
  area : Nat
  side : String
  x : Option DimValue := none
  y : Option DimValue := none
  width : Option DimValue := none
  height : Option DimValue := none
  position : Option String := none
  fit : Option String := none
  style : Option (List (String × String)) := none
deriving DecidableEq

/-- Normalized theme configuration (output of ConfigParser.parse). -/
structure Config where
  front : SideConfig
  back : SideConfig
  contentArea : List ContentArea
deriving DecidableEq

/-- Default neutral background color (source line 214). -/
def DEFAULT_BACKGROUND : String := "#eeeeee"

/-! ## ConfigParser (src/realpic_viewer.js lines 275 to 451) -/

/-- ConfigParser._parseSideConfig (source lines 305 to 319): image is kept
only when truthy, background defaults through the JS || operator, width and
height are kept through the JS ?? operator (so an explicit 0 survives); the
redundant empty-object check of lines 313 to 316 is reproduced as well. -/
def ConfigParser._parseSideConfig (sideConfig : RawSide) : SideConfig :=
  let result : SideConfig := {
    image := if jsTruthyStr sideConfig.image then sideConfig.image else none,
    background := jsOrStr sideConfig.background DEFAULT_BACKGROUND,
    width := sideConfig.width,
    height := sideConfig.height }
  if !jsTruthyStr sideConfig.image && !jsTruthyNum sideConfig.width
      && !jsTruthyNum sideConfig.height && !jsTruthyStr sideConfig.background then
    { result with background := DEFAULT_BACKGROUND }
  else result

/-- The two areas synthesized by _parseContentAreas for a missing or empty
list (source lines 328 to 331): they carry only the fields area and side. -/
def defaultContentAreas : List ContentArea :=
  [ { area := 0, side := "front" }, { area := 1, side := "back" } ]

/-- The per-entry defaulting of the map callback in _parseContentAreas
(source lines 334 to 344), with the index-based front/back convention. -/
def ConfigParser.parseAreaAt (index : Nat) (area : RawArea) : ContentArea :=
  { area := area.area.getD index,
    side := jsOrStr area.side (if index = 0 then "front" else "back"),
    x := some (area.x.getD (if index = 0 then .num 0 else .num 0.1)),
    y := some (area.y.getD (if index = 0 then .num 0 else .num 0.1)),
    width := some (area.width.getD (if index = 0 then .num 1 else .num 0.8)),
    height := some (area.height.getD (if index = 0 then .num 1 else .num 0.8)),
    position := some (jsOrStr area.position "center"),
    fit := some (jsOrStr area.fit "contain"),
    style := some (area.style.getD []) }

/-- Index-passing map, modelling the JS areas.map((area, index) => ...). -/
def mapIdxFrom {α β : Type} (f : Nat → α → β) : Nat → List α → List β
  | _, [] => []
  | i, a :: t => f i a :: mapIdxFrom f (i + 1) t

/-- ConfigParser._parseContentAreas (source lines 325 to 345). A raw value
that is not an array collapses to the empty list in this model, matching the
Array.isArray guard. -/
def ConfigParser._parseContentAreas (areas : List RawArea) : List ContentArea :=
  if areas.isEmpty then defaultContentAreas
  else mapIdxFrom ConfigParser.parseAreaAt 0 areas

/-- ConfigParser._resolveDependencies (source lines 352 to 360): the back
width and height inherit the front values when they are null. -/
def ConfigParser._resolveDependencies (config : Config) : Config :=
  let config :=
    if config.back.width = none then
      { config with back := { config.back with width := config.front.width } }
    else config
  if config.back.height = none then
    { config with back := { config.back with height := config.front.height } }
  else config

/-- ConfigParser._resolvePath (source lines 383 to 391). -/
def ConfigParser._resolvePath (path base : String) : String :=
  if strStartsWith path "http" || strStartsWith path "/" then path
  else if strStartsWith path "./" then base ++ strDrop path 2
  else base ++ path

/-- ConfigParser._resolveImagePaths (source lines 366 to 377). -/
def ConfigParser._resolveImagePaths (config : Config) (themeBase : String) : Config :=
  if themeBase = "" then config
  else
    let base := if strEndsWith themeBase "/" then themeBase else themeBase ++ "/"
    let config :=
      if jsTruthyStr config.front.image then
        { config with front := { config.front with
            image := config.front.image.map (fun p => ConfigParser._resolvePath p base) } }
      else config
    if jsTruthyStr config.back.image then
      { config with back := { config.back with
          image := config.back.image.map (fun p => ConfigParser._resolvePath p base) } }
    else config

/-- ConfigParser._validate (source lines 397 to 406): a pure observer that
returns the console warnings it would emit and nothing else. -/
def ConfigParser._validate (config : Config) : List String :=
  (if (config.contentArea.get? 0).map ContentArea.side ≠ some "front" then
    ["Config warning: contentArea[0] should have side=\"front\""] else []) ++
  (if (config.contentArea.get? 1).map ContentArea.side ≠ some "back" then
    ["Config warning: contentArea[1] should have side=\"back\""] else [])

/-- ConfigParser.parse (source lines 282 to 299): side parsing, content area
parsing, dependency resolution, image path resolution, then validation (whose
warnings are discarded, as console.warn output is). -/
def ConfigParser.parse (rawConfig : RawConfig) (themeBase : String) : Config :=
  let config : Config := {
    front := ConfigParser._parseSideConfig (rawConfig.front.getD {}),
    back := ConfigParser._parseSideConfig (rawConfig.back.getD {}),
    contentArea := ConfigParser._parseContentAreas (rawConfig.contentArea.getD []) }
  let config := ConfigParser._resolveDependencies config
  let config := ConfigParser._resolveImagePaths config themeBase
  let _warnings := ConfigParser._validate config
  config

/-! ## Dimension resolution (src/realpic_viewer.js lines 414 to 450) -/

/-- A loaded image asset with its intrinsic pixel size. -/
structure LoadedImage where
  width : ℚ
  height : ℚ
deriving DecidableEq

/-- The loadedImages map, restricted to the keys getDimensions reads. -/
structure LoadedImages where
  frontFrame : Option LoadedImage := none
  backFrame : Option LoadedImage := none
  content_0 : Option LoadedImage := none
deriving DecidableEq

/-- A resolved width/height pair. -/
structure FaceSize where
  width : ℚ
  height : ℚ
deriving DecidableEq

/-- The result record of ConfigParser.getDimensions. -/
structure Dimensions where
  front : FaceSize
  back : FaceSize
  realpic : FaceSize
deriving DecidableEq

/-- ConfigParser.getDimensions (source lines 414 to 450): explicit config
size, then front frame image size, then content_0 image size, then the fixed
800 by 600 default; back inherits the resolved front value per axis; the
realpic size is the front size. -/
def ConfigParser.getDimensions (config : Config) (loadedImages : LoadedImages) : Dimensions :=
  let frontWidth := config.front.width
  let frontHeight := config.front.height
  let step2 : Option ℚ × Option ℚ :=
    if frontWidth = none ∨ frontHeight = none then
      match loadedImages.frontFrame with
      | some frontImg => (some (frontWidth.getD frontImg.width), some (frontHeight.getD frontImg.height))
      | none => (frontWidth, frontHeight)
    else (frontWidth, frontHeight)
  let step3 : Option ℚ × Option ℚ :=
    if step2.1 = none ∨ step2.2 = none then
      match loadedImages.content_0 with
      | some contentImg => (some (step2.1.getD contentImg.width), some (step2.2.getD contentImg.height))
      | none => step2
    else step2
  let fw := step3.1.getD 800
  let fh := step3.2.getD 600
  let bw := config.back.width.getD fw
  let bh := config.back.height.getD fh
  { front := ⟨fw, fh⟩, back := ⟨bw, bh⟩, realpic := ⟨fw, fh⟩ }

/-- The per-axis fallback chain (explicit config value, then front frame
image, then content_0 image, then the fixed default), stated as a direct
four-way selection; used to express the claim that getDimensions applies the
chain independently per axis. -/
def axisFallback (cfg frameImg contentImg : Option ℚ) (fallbackDefault : ℚ) : ℚ :=
  match cfg with
  | some v => v
  | none =>
    match frameImg with
    | some v => v
    | none =>
      match contentImg with
      | some v => v
      | none => fallbackDefault

/-! ## Dimension value parsing (src/realpic_viewer.js lines 775 to 788) -/

/-- RealPic._parseDimension (source lines 775 to 788); the result is an
Option because a non-numeric string makes parseFloat return NaN, which then
propagates through the arithmetic (modelled as none). -/
def RealPic._parseDimension (value : DimValue) (baseSize : ℚ) : Option ℚ :=
  match value with
  | .str s0 =>
    let s := jsTrim s0
    if jsEndsWith s ['%'] then (jsParseFloat s).map (fun q => q / 100 * baseSize)
    else if jsEndsWith s ['p', 'x'] then jsParseFloat s
    else (jsParseFloat s).map (fun num => if num ≤ 1 then num * baseSize else num)
  | .num v => some (if v ≤ 1 then v * baseSize else v)

/-! ## Layout (src/realpic_viewer.js lines 671 to 701) -/

/-- The card scale computed by RealPic._applyLayout (source lines 679 to
682). -/
def RealPic.cardScale (containerW containerH realpicW realpicH : ℚ) : ℚ :=
  min (containerW / realpicW) (containerH / realpicH)

/-- The card pixel rectangle computed by RealPic._applyLayout (source lines
684 to 689): the realpic natural size times the card scale. -/
def RealPic._applyLayout (containerW containerH realpicW realpicH : ℚ) : ℚ × ℚ :=
  let scale := RealPic.cardScale containerW containerH realpicW realpicH
  (realpicW * scale, realpicH * scale)

/-! ## Presentation state machine (src/realpic_viewer.js lines 1010 to 1063) -/

/-- The observable presentation state of a RealPic instance: the two state
flags, the two CSS classes on the root element, and the inline transform of
the perspective wrapper. -/
structure PState where
  isFlipped : Bool
  isAnimating : Bool
  flippedClass : Bool
  hiddenClass : Bool
  transform : String
deriving DecidableEq

/-- The state established by the constructor (source lines 461 to 484 and
_createDOM line 893: the root element starts hidden). -/
def initialPState : PState :=
  { isFlipped := false, isAnimating := false, flippedClass := false,
    hiddenClass := true, transform := "" }

/-- RealPic.flip (source lines 1010 to 1027), up to the setTimeout: a no-op
while animating, otherwise it toggles the flipped flag, clears the tilt
transform, and toggles the flipped class. -/
def RealPic.flip (s : PState) : PState :=
  if s.isAnimating then s
  else
    let flipped := !s.isFlipped
    { s with isAnimating := true, isFlipped := flipped,
             transform := "rotateX(0) rotateY(0) translateZ(0)",
             flippedClass := flipped }

/-- The setTimeout callback of RealPic.flip (source lines 1024 to 1026),
fired when the 600 ms animation window elapses. -/
def RealPic.flipTimeout (s : PState) : PState := { s with isAnimating := false }

/-- RealPic.reset (source lines 1032 to 1035). -/
def RealPic.reset (s : PState) : PState := { s with isFlipped := false, flippedClass := false }

/-- RealPic.show (source lines 1040 to 1044). -/
def RealPic.show (s : PState) : PState := { s with hiddenClass := false }

/-- RealPic.hide (source lines 1049 to 1055): add the hidden class, then
reset. -/
def RealPic.hide (s : PState) : PState := RealPic.reset { s with hiddenClass := true }

/-! ## Untyped raw layer and throwing normalization
(src/realpic_viewer.js lines 275 to 406 over untrusted JSON values)

The typed raw layer above quantifies over descriptors whose fields carry the
JSON types the parser expects. The parser itself never checks those types:
a null content-area array element makes the map callback of
_parseContentAreas throw a TypeError when it reads area.area (source line
335), and a truthy non-string side image makes _resolvePath throw a
TypeError when it calls path.startsWith (source line 384). The layer below
widens the input types by exactly these off-type shapes and embeds the same
pipeline with Except, so the throwing behavior of normalization is
expressible; it is related to the typed layer on well-typed inputs. -/

/-- A side image value as found in raw JSON: a string, or a number standing
for any truthy non-string value on which path.startsWith would throw. -/
inductive JsImageVal where
  | str (s : String)
  | num (q : ℚ)
deriving DecidableEq

/-- JS truthiness of an optional image value. -/
def jsTruthyImg : Option JsImageVal → Bool
  | none => false
  | some (.str s) => decide (s ≠ "")
  | some (.num q) => decide (q ≠ 0)

/-- Raw side descriptor whose image field is not assumed to be a string. -/
structure RawSideU where
  image : Option JsImageVal := none
  background : Option String := none
  width : Option ℚ := none
  height : Option ℚ := none
deriving DecidableEq

/-- A content-area array element: an object, or a null element on which the
map callback of _parseContentAreas throws when reading area.area. -/
inductive RawAreaEntry where
  | obj (a : RawArea)
  | nullEntry
deriving DecidableEq

/-- Raw theme descriptor over the widened field types. -/
structure RawConfigU where
  front : Option RawSideU := none
  back : Option RawSideU := none
  contentArea : Option (List RawAreaEntry) := none
deriving DecidableEq

/-- Normalized side configuration whose image is still an untyped JSON
value (the type is only forced when _resolvePath runs). -/
structure SideConfigU where
  image : Option JsImageVal
  background : String
  width : Option ℚ
  height : Option ℚ
deriving DecidableEq

/-- Normalized configuration over untyped side images. -/
structure ConfigU where
  front : SideConfigU
  back : SideConfigU
  contentArea : List ContentArea
deriving DecidableEq

/-- Forgetting the widened image type of a raw side; the numeric case maps
to an absent image and is only ever used under a well-typedness hypothesis. -/
def RawSideU.strip (s : RawSideU) : RawSide :=
  { image := match s.image with
      | some (.str p) => some p
      | _ => none,
    background := s.background, width := s.width, height := s.height }

/-- Whether a content-area array element is an object. -/
def RawAreaEntry.isObj : RawAreaEntry → Bool
  | .obj _ => true
  | .nullEntry => false

/-- Forgetting the widened element type; the null case maps to the empty
object and is only ever used under a well-typedness hypothesis. -/
def RawAreaEntry.strip : RawAreaEntry → RawArea
  | .obj a => a
  | .nullEntry => {}

/-- Forgetting the widened field types of a raw descriptor. -/
def RawConfigU.strip (r : RawConfigU) : RawConfig :=
  { front := r.front.map RawSideU.strip, back := r.back.map RawSideU.strip,
    contentArea := r.contentArea.map (List.map RawAreaEntry.strip) }

/-- A raw side is JSON-well-typed for the parser when its image is a string
or absent. -/
def RawSideU.wellTyped (s : RawSideU) : Bool :=
  match s.image with
  | none => true
  | some (.str _) => true
  | some (.num _) => false

/-- A raw descriptor is JSON-well-typed for the parser when both side
images are strings or absent and every content-area entry is an object. -/
def RawConfigU.wellTyped (r : RawConfigU) : Bool :=
  RawSideU.wellTyped (r.front.getD {}) && RawSideU.wellTyped (r.back.getD {}) &&
  (r.contentArea.getD []).all RawAreaEntry.isObj

/-- Embedding a typed side configuration into the untyped layer. -/
def SideConfig.toU (s : SideConfig) : SideConfigU :=
  { image := s.image.map JsImageVal.str, background := s.background,
    width := s.width, height := s.height }

/-- Embedding a typed configuration into the untyped layer. -/
def Config.toU (c : Config) : ConfigU :=
  { front := SideConfig.toU c.front, back := SideConfig.toU c.back,
    contentArea := c.contentArea }

/-- ConfigParser._parseSideConfig over an untyped side (source lines 305 to
319); property reads and truthiness checks never throw, whatever the image
type, so this stage is total. -/
def ConfigParser._parseSideConfigU (sideConfig : RawSideU) : SideConfigU :=
  let result : SideConfigU := {
    image := if jsTruthyImg sideConfig.image then sideConfig.image else none,
    background := jsOrStr sideConfig.background DEFAULT_BACKGROUND,
    width := sideConfig.width,
    height := sideConfig.height }
  if !jsTruthyImg sideConfig.image && !jsTruthyNum sideConfig.width
      && !jsTruthyNum sideConfig.height && !jsTruthyStr sideConfig.background then
    { result with background := DEFAULT_BACKGROUND }
  else result

/-- The map callback of _parseContentAreas on one array element (source
lines 334 to 344): reading area.area of a null element throws. -/
def ConfigParser.parseAreaAtE (index : Nat) (entry : RawAreaEntry) : Except String ContentArea :=
  match entry with
  | .nullEntry => Except.error "TypeError: Cannot read properties of null (reading area)"
  | .obj a => Except.ok (ConfigParser.parseAreaAt index a)

/-- Index-passing map with a throwing callback; the first throw aborts the
whole map, as an exception aborts Array.prototype.map. -/
def mapIdxFromE {α β : Type} (f : Nat → α → Except String β) :
    Nat → List α → Except String (List β)
  | _, [] => Except.ok []
  | i, a :: t =>
    match f i a with
    | .error e => Except.error e
    | .ok b =>
      match mapIdxFromE f (i + 1) t with
      | .error e => Except.error e
      | .ok bs => Except.ok (b :: bs)

/-- ConfigParser._parseContentAreas over untyped array elements (source
lines 325 to 345). -/
def ConfigParser._parseContentAreasE (areas : List RawAreaEntry) :
    Except String (List ContentArea) :=
  if areas.isEmpty then Except.ok defaultContentAreas
  else mapIdxFromE ConfigParser.parseAreaAtE 0 areas

/-- ConfigParser._resolveDependencies over the untyped layer (source lines
352 to 360); it only touches width and height, so it is total. -/
def ConfigParser._resolveDependenciesU (config : ConfigU) : ConfigU :=
  let config :=
    if config.back.width = none then
      { config with back := { config.back with width := config.front.width } }
    else config
  if config.back.height = none then
    { config with back := { config.back with height := config.front.height } }
  else config

/-- The body of the truthiness-guarded image rewrite of _resolveImagePaths
(source lines 371 to 376): a truthy non-string image reaches
path.startsWith inside _resolvePath (source line 384) and throws. -/
def ConfigParser._resolveImageValE (img : Option JsImageVal) (base : String) :
    Except String (Option JsImageVal) :=
  if jsTruthyImg img then
    match img with
    | some (.str p) => Except.ok (some (.str (ConfigParser._resolvePath p base)))
    | some (.num _) => Except.error "TypeError: path.startsWith is not a function"
    | none => Except.ok none
  else Except.ok img

/-- ConfigParser._resolveImagePaths over the untyped layer (source lines
366 to 377), front image first, then back image. -/
def ConfigParser._resolveImagePathsE (config : ConfigU) (themeBase : String) :
    Except String ConfigU :=
  if themeBase = "" then Except.ok config
  else
    let base := if strEndsWith themeBase "/" then themeBase else themeBase ++ "/"
    match ConfigParser._resolveImageValE config.front.image base with
    | .error e => Except.error e
    | .ok fimg =>
      match ConfigParser._resolveImageValE config.back.image base with
      | .error e => Except.error e
      | .ok bimg =>
        Except.ok { config with front := { config.front with image := fimg },
                                back := { config.back with image := bimg } }

/-- ConfigParser._validate over the untyped layer (source lines 397 to
406): the same pure observer. -/
def ConfigParser._validateU (config : ConfigU) : List String :=
  (if (config.contentArea.get? 0).map ContentArea.side ≠ some "front" then
    ["Config warning: contentArea[0] should have side=\"front\""] else []) ++
  (if (config.contentArea.get? 1).map ContentArea.side ≠ some "back" then
    ["Config warning: contentArea[1] should have side=\"back\""] else [])

/-- ConfigParser.parse over the untyped layer (source lines 282 to 299),
with the two stages that can throw surfaced in Except: the map callback on
a null element, and _resolvePath on a truthy non-string image; warnings of
the validation step are discarded as console output is. -/
def ConfigParser.parseE (rawConfig : RawConfigU) (themeBase : String) :
    Except String ConfigU :=
  match ConfigParser._parseContentAreasE (rawConfig.contentArea.getD []) with
  | .error e => Except.error e
  | .ok areas =>
    let config : ConfigU := {
      front := ConfigParser._parseSideConfigU (rawConfig.front.getD {}),
      back := ConfigParser._parseSideConfigU (rawConfig.back.getD {}),
      contentArea := areas }
    let config := ConfigParser._resolveDependenciesU config
    match ConfigParser._resolveImagePathsE config themeBase with
    | .error e => Except.error e
    | .ok config =>
      let _warnings := ConfigParser._validateU config
      Except.ok config

/-! ## Exception behavior (src/realpic_viewer.js lines 461 to 599 and the
uncaught render stage of lines 554 to 572) -/

/-- Whether an Except value is a success. -/
def exceptOk {ε α : Type} : Except ε α → Bool
  | .ok _ => true
  | .error _ => false

/-- Outcome of the external theme config fetch: a parsed JSON value of the
untyped raw shape, or a network or non-success failure. -/
inductive FetchOutcome where
  | ok (raw : RawConfigU)
  | fail
deriving DecidableEq

/-- The constructor guard (source lines 461 to 464): a missing container is
the fail-fast precondition. -/
def RealPic.constructorE (container : Option Unit) : Except String PState :=
  match container with
  | none => Except.error "Container element is required"
  | some _ => Except.ok initialPState

/-- RealPic._loadConfig (source lines 578 to 599): the themePath guard
throws before the try block, so that throw is not caught here; a fetch
failure, and equally a TypeError thrown by ConfigParser.parse on a
malformed fetched value (parse runs inside the try), are caught and
replaced by parsing the empty descriptor. -/
def RealPic._loadConfigE (themePath : Option String) (fetch : FetchOutcome) :
    Except String ConfigU :=
  if !jsTruthyStr themePath then Except.error "themePath is required in options"
  else
    let themeBase := themePath.getD ""
    match fetch with
    | .ok rawConfig =>
      match ConfigParser.parseE rawConfig themeBase with
      | .ok config => Except.ok config
      | .error _ => Except.ok (Config.toU (ConfigParser.parse {} themeBase))
    | .fail => Except.ok (Config.toU (ConfigParser.parse {} themeBase))

/-- The five positions accepted by the alignMap of _mountTextContent
(source lines 855 to 862). -/
def alignMapKeys : List String := ["top", "bottom", "left", "right", "center"]

/-- The uncaught render stage of _loadAndRender past config loading (source
lines 554 to 572), restricted to its two throwing checks, in source order:
_applyAreaLayout reads this.dimensions[side] (source line 749), which is
undefined unless the side is front or back, and throws reading its width;
then _mountTextContent destructures alignMap[position || center] (source
line 862) for every area receiving a text content and throws when the
position is off the enum. textAreas lists the area ids targeted by
text-type contents. The checks run over the full area list, which agrees
with the contentAreas Map for descriptors without duplicate area ids, the
only ones quantified concretely here. -/
def RealPic.renderE (config : ConfigU) (textAreas : List Nat) : Except String Unit :=
  if !(config.contentArea.all (fun a => a.side == "front" || a.side == "back")) then
    Except.error "TypeError: Cannot read properties of undefined (reading width)"
  else if !((config.contentArea.filter (fun a => textAreas.contains a.area)).all
      (fun a => alignMapKeys.contains (jsOrStr a.position "center"))) then
    Except.error "TypeError: alignMap destructuring of undefined"
  else Except.ok ()

/-- RealPic._loadAndRender (source lines 554 to 572): config loading
followed by the uncaught render stage. -/
def RealPic._loadAndRenderE (themePath : Option String) (fetch : FetchOutcome)
    (textAreas : List Nat) : Except String Unit :=
  match RealPic._loadConfigE themePath fetch with
  | .error e => Except.error e
  | .ok config => RealPic.renderE config textAreas

/-- RealPic.setOptions (source lines 490 to 499): the first initialization
awaits _init with no catch, so any error of _loadAndRender escapes to the
caller; the update path goes through _updateContent (lines 526 to 536)
whose try/catch swallows every such error with a console diagnostic. -/
def RealPic.setOptionsE (isInitialized : Bool) (themePath : Option String)
    (fetch : FetchOutcome) (textAreas : List Nat) : Except String Unit :=
  if isInitialized then
    match RealPic._loadAndRenderE themePath fetch textAreas with
    | .ok _ => Except.ok ()
    | .error _ => Except.ok ()
  else
    RealPic._loadAndRenderE themePath fetch textAreas

/-! ## Claim theorems -/

/-- C1: RealPic._parseDimension is a pure function implementing the five-way
disambiguation: a plain number at most 1 yields v times the base, a plain
number above 1 yields v itself, a string ending in a percent sign yields the
parsed percentage of the base, a string ending in px yields its parsed value,
and any other numeric string follows the same at-most-1 versus above-1 rule;
moreover the five concrete evaluations of the spec hold and the boundary
value exactly 1 is treated as a fraction. -/
theorem C1_parseDimension_five_way :
    (∀ v b : ℚ, v ≤ 1 → RealPic._parseDimension (.num v) b = some (v * b)) ∧
    (∀ v b : ℚ, 1 < v → RealPic._parseDimension (.num v) b = some v) ∧
    (∀ s0 b q, jsEndsWith (jsTrim s0) ['%'] = true →
      jsParseFloat (jsTrim s0) = some q →
      RealPic._parseDimension (.str s0) b = some (q / 100 * b)) ∧
    (∀ s0 b q, jsEndsWith (jsTrim s0) ['%'] = false →
      jsEndsWith (jsTrim s0) ['p', 'x'] = true →
      jsParseFloat (jsTrim s0) = some q →
      RealPic._parseDimension (.str s0) b = some q) ∧
    (∀ s0 b q, jsEndsWith (jsTrim s0) ['%'] = false →
      jsEndsWith (jsTrim s0) ['p', 'x'] = false →
      jsParseFloat (jsTrim s0) = some q →
      RealPic._parseDimension (.str s0) b = some (if q ≤ 1 then q * b else q)) ∧
    RealPic._parseDimension (.num 0.5) 1000 = some 500 ∧
    RealPic._parseDimension (.num 560) 1000 = some 560 ∧
    RealPic._parseDimension (.str ['5', '0', '%']) 1000 = some 500 ∧
    RealPic._parseDimension (.str ['5', '6', '0', 'p', 'x']) 1000 = some 560 ∧
    RealPic._parseDimension (.num 1000) 1000 = some 1000 ∧
    (∀ b : ℚ, RealPic._parseDimension (.num 1) b = some b) := by
  refine ⟨?_, ?_, ?_, ?_, ?_, ?_, ?_, ?_, ?_, ?_, ?_⟩
  · intro v b h
    simp [RealPic._parseDimension, if_pos h]
  · intro v b h
    simp [RealPic._parseDimension, not_le.mpr h]
  · intro s0 b q h1 h2
    simp [RealPic._parseDimension, h1, h2]
  · intro s0 b q h1 h2 h3
    simp [RealPic._parseDimension, h1, h2, h3]
  · intro s0 b q h1 h2 h3
    simp [RealPic._parseDimension, h1, h2, h3]
  · norm_num [RealPic._parseDimension]
  · norm_num [RealPic._parseDimension]
  · simp only [RealPic._parseDimension,
      show jsTrim ['5', '0', '%'] = ['5', '0', '%'] from by decide,
      show jsEndsWith ['5', '0', '%'] ['%'] = true from by decide,
      jsParseFloat,
      show jsParseFloatScan ['5', '0', '%'] = ⟨false, 50, 0, 0, true⟩ from by decide,
      if_true]
    norm_num
  · simp only [RealPic._parseDimension,
      show jsTrim ['5', '6', '0', 'p', 'x'] = ['5', '6', '0', 'p', 'x'] from by decide,
      show jsEndsWith ['5', '6', '0', 'p', 'x'] ['%'] = false from by decide,
      show jsEndsWith ['5', '6', '0', 'p', 'x'] ['p', 'x'] = true from by decide,
      jsParseFloat,
      show jsParseFloatScan ['5', '6', '0', 'p', 'x'] = ⟨false, 560, 0, 0, true⟩ from by decide]
    norm_num
  · norm_num [RealPic._parseDimension]
  · intro b
    norm_num [RealPic._parseDimension]

/-- Witness for C1: each hypothesized branch of the theorem instantiated at
a concrete input. -/
theorem C1_parseDimension_five_way_witness :
    RealPic._parseDimension (.num 0.25) 1000 = some (0.25 * 1000) ∧
    RealPic._parseDimension (.num 4) 1000 = some 4 ∧
    RealPic._parseDimension (.str ['5', '0', '%']) 200 = some (50 / 100 * 200) ∧
    RealPic._parseDimension (.str ['5', '6', '0', 'p', 'x']) 200 = some 560 ∧
    RealPic._parseDimension (.str ['0', '.', '5']) 200 =
      some (if (0.5 : ℚ) ≤ 1 then 0.5 * 200 else 0.5) :=
  ⟨C1_parseDimension_five_way.1 0.25 1000 (by norm_num),
   C1_parseDimension_five_way.2.1 4 1000 (by norm_num),
   C1_parseDimension_five_way.2.2.1 ['5', '0', '%'] 200 50 (by decide)
     (by simp only [show jsTrim ['5', '0', '%'] = ['5', '0', '%'] from by decide, jsParseFloat,
           show jsParseFloatScan ['5', '0', '%'] = ⟨false, 50, 0, 0, true⟩ from by decide]
         norm_num),
   C1_parseDimension_five_way.2.2.2.1 ['5', '6', '0', 'p', 'x'] 200 560 (by decide) (by decide)
     (by simp only [show jsTrim ['5', '6', '0', 'p', 'x'] = ['5', '6', '0', 'p', 'x'] from by decide,
           jsParseFloat,
           show jsParseFloatScan ['5', '6', '0', 'p', 'x'] = ⟨false, 560, 0, 0, true⟩ from by decide]
         norm_num),
   C1_parseDimension_five_way.2.2.2.2.1 ['0', '.', '5'] 200 0.5 (by decide) (by decide)
     (by simp only [show jsTrim ['0', '.', '5'] = ['0', '.', '5'] from by decide, jsParseFloat,
           show jsParseFloatScan ['0', '.', '5'] = ⟨false, 0, 5, 1, true⟩ from by decide]
         norm_num)⟩


/-! ## Helper lemmas about the normalization pipeline -/

/-- _parseSideConfig copies the raw width unchanged (nullish coalescing). -/
theorem psc_width (sc : RawSide) : (ConfigParser._parseSideConfig sc).width = sc.width := by
  simp only [ConfigParser._parseSideConfig]
  split <;> rfl

/-- _parseSideConfig copies the raw height unchanged (nullish coalescing). -/
theorem psc_height (sc : RawSide) : (ConfigParser._parseSideConfig sc).height = sc.height := by
  simp only [ConfigParser._parseSideConfig]
  split <;> rfl

/-- The default of the JS || operator is never the empty string when the
default itself is not. -/
theorem jsOrStr_ne_empty (v : Option String) : jsOrStr v DEFAULT_BACKGROUND ≠ "" := by
  unfold jsOrStr
  rcases v with _ | s
  · simp [DEFAULT_BACKGROUND]
  · dsimp only
    split
    · simp [DEFAULT_BACKGROUND]
    · assumption

/-- The background produced by _parseSideConfig is never the empty string. -/
theorem psc_background_ne_empty (sc : RawSide) :
    (ConfigParser._parseSideConfig sc).background ≠ "" := by
  simp only [ConfigParser._parseSideConfig]
  split
  · simp [DEFAULT_BACKGROUND]
  · exact jsOrStr_ne_empty _

/-- _resolveDependencies leaves the front side unchanged. -/
theorem rdep_front (c : Config) :
    (ConfigParser._resolveDependencies c).front = c.front := by
  simp only [ConfigParser._resolveDependencies]
  split <;> split <;> rfl

/-- _resolveDependencies leaves the content areas unchanged. -/
theorem rdep_contentArea (c : Config) :
    (ConfigParser._resolveDependencies c).contentArea = c.contentArea := by
  simp only [ConfigParser._resolveDependencies]
  split <;> split <;> rfl

/-- _resolveDependencies resolves the back width from the front exactly when
the back width is null. -/
theorem rdep_back_width (c : Config) :
    (ConfigParser._resolveDependencies c).back.width =
      (if c.back.width = none then c.front.width else c.back.width) := by
  simp only [ConfigParser._resolveDependencies]
  by_cases h1 : c.back.width = none <;> by_cases h2 : c.back.height = none <;> simp [h1, h2]

/-- _resolveDependencies resolves the back height from the front exactly when
the back height is null. -/
theorem rdep_back_height (c : Config) :
    (ConfigParser._resolveDependencies c).back.height =
      (if c.back.height = none then c.front.height else c.back.height) := by
  simp only [ConfigParser._resolveDependencies]
  by_cases h1 : c.back.width = none <;> by_cases h2 : c.back.height = none <;> simp [h1, h2]

/-- _resolveDependencies leaves the back image and background unchanged. -/
theorem rdep_back_image_background (c : Config) :
    (ConfigParser._resolveDependencies c).back.image = c.back.image ∧
    (ConfigParser._resolveDependencies c).back.background = c.back.background := by
  simp only [ConfigParser._resolveDependencies]
  split <;> split <;> exact ⟨rfl, rfl⟩

/-- _resolveImagePaths touches only the two image fields. -/
theorem rip_parts (c : Config) (b : String) :
    (ConfigParser._resolveImagePaths c b).front.width = c.front.width ∧
    (ConfigParser._resolveImagePaths c b).front.height = c.front.height ∧
    (ConfigParser._resolveImagePaths c b).front.background = c.front.background ∧
    (ConfigParser._resolveImagePaths c b).back.width = c.back.width ∧
    (ConfigParser._resolveImagePaths c b).back.height = c.back.height ∧
    (ConfigParser._resolveImagePaths c b).back.background = c.back.background ∧
    (ConfigParser._resolveImagePaths c b).contentArea = c.contentArea := by
  simp only [ConfigParser._resolveImagePaths]
  split
  · exact ⟨rfl, rfl, rfl, rfl, rfl, rfl, rfl⟩
  · repeat' split
    all_goals exact ⟨rfl, rfl, rfl, rfl, rfl, rfl, rfl⟩

/-- _resolveImagePaths maps absent images to absent images. -/
theorem rip_images_none (c : Config) (b : String) (hf : c.front.image = none)
    (hb : c.back.image = none) :
    (ConfigParser._resolveImagePaths c b).front.image = none ∧
    (ConfigParser._resolveImagePaths c b).back.image = none := by
  simp only [ConfigParser._resolveImagePaths]
  simp [hf, hb, jsTruthyStr]

/-- The front width of a parsed config is the raw front width. -/
theorem parse_front_width (raw : RawConfig) (base : String) :
    (ConfigParser.parse raw base).front.width = (raw.front.getD {}).width := by
  unfold ConfigParser.parse
  rw [(rip_parts _ _).1, rdep_front]
  exact psc_width _

/-- The front height of a parsed config is the raw front height. -/
theorem parse_front_height (raw : RawConfig) (base : String) :
    (ConfigParser.parse raw base).front.height = (raw.front.getD {}).height := by
  unfold ConfigParser.parse
  rw [(rip_parts _ _).2.1, rdep_front]
  exact psc_height _

/-- The back width of a parsed config: the raw back width, or the raw front
width when the raw back width is null. -/
theorem parse_back_width (raw : RawConfig) (base : String) :
    (ConfigParser.parse raw base).back.width =
      (if (raw.back.getD {}).width = none then (raw.front.getD {}).width
       else (raw.back.getD {}).width) := by
  unfold ConfigParser.parse
  rw [(rip_parts _ _).2.2.2.1, rdep_back_width]
  simp only [psc_width]

/-- The back height of a parsed config: the raw back height, or the raw
front height when the raw back height is null. -/
theorem parse_back_height (raw : RawConfig) (base : String) :
    (ConfigParser.parse raw base).back.height =
      (if (raw.back.getD {}).height = none then (raw.front.getD {}).height
       else (raw.back.getD {}).height) := by
  unfold ConfigParser.parse
  rw [(rip_parts _ _).2.2.2.2.1, rdep_back_height]
  simp only [psc_height]

/-- The content areas of a parsed config come from _parseContentAreas. -/
theorem parse_contentArea (raw : RawConfig) (base : String) :
    (ConfigParser.parse raw base).contentArea =
      ConfigParser._parseContentAreas (raw.contentArea.getD []) := by
  unfold ConfigParser.parse
  rw [(rip_parts _ _).2.2.2.2.2.2, rdep_contentArea]

/-- The side backgrounds of a parsed config come from _parseSideConfig. -/
theorem parse_backgrounds (raw : RawConfig) (base : String) :
    (ConfigParser.parse raw base).front.background =
      (ConfigParser._parseSideConfig (raw.front.getD {})).background ∧
    (ConfigParser.parse raw base).back.background =
      (ConfigParser._parseSideConfig (raw.back.getD {})).background := by
  unfold ConfigParser.parse
  rw [(rip_parts _ _).2.2.1, (rip_parts _ _).2.2.2.2.2.1, rdep_front,
    (rdep_back_image_background _).2]
  exact ⟨rfl, rfl⟩

/-- A parsed config whose raw descriptor has no side images has none. -/
theorem parse_images_none (raw : RawConfig) (base : String)
    (hf : (raw.front.getD {}).image = none) (hb : (raw.back.getD {}).image = none) :
    (ConfigParser.parse raw base).front.image = none ∧
    (ConfigParser.parse raw base).back.image = none := by
  unfold ConfigParser.parse
  refine rip_images_none _ _ ?_ ?_
  · rw [rdep_front]
    simp [ConfigParser._parseSideConfig, hf, jsTruthyStr]
    split <;> rfl
  · rw [(rdep_back_image_background _).1]
    simp [ConfigParser._parseSideConfig, hb, jsTruthyStr]
    split <;> rfl

/-! ## C4: layout containment -/

/-- C4: for every viewport rectangle and card natural size, all positive,
the card scale is the minimum of the two axis ratios, the resulting card
pixel rect fits inside the viewport on both axes, at least one axis exactly
touches the viewport bound, and the aspect ratio of the card is preserved. -/
theorem C4_layout_containment (vw vh cw ch : ℚ)
    (hvw : 0 < vw) (hvh : 0 < vh) (hcw : 0 < cw) (hch : 0 < ch) :
    RealPic.cardScale vw vh cw ch = min (vw / cw) (vh / ch) ∧
    (RealPic._applyLayout vw vh cw ch).1 ≤ vw ∧
    (RealPic._applyLayout vw vh cw ch).2 ≤ vh ∧
    ((RealPic._applyLayout vw vh cw ch).1 = vw ∨ (RealPic._applyLayout vw vh cw ch).2 = vh) ∧
    (RealPic._applyLayout vw vh cw ch).1 * ch = (RealPic._applyLayout vw vh cw ch).2 * cw := by
  have hcw0 : cw ≠ 0 := ne_of_gt hcw
  have hch0 : ch ≠ 0 := ne_of_gt hch
  have e1 : cw * (vw / cw) = vw := by field_simp
  have e2 : ch * (vh / ch) = vh := by field_simp
  refine ⟨rfl, ?_⟩
  simp only [RealPic._applyLayout, RealPic.cardScale]
  rcases le_total (vw / cw) (vh / ch) with h | h
  · rw [min_eq_left h]
    exact ⟨le_of_eq e1,
      le_trans (mul_le_mul_of_nonneg_left h hch.le) (le_of_eq e2),
      Or.inl e1, by ring⟩
  · rw [min_eq_right h]
    exact ⟨le_trans (mul_le_mul_of_nonneg_left h hcw.le) (le_of_eq e1),
      le_of_eq e2, Or.inr e2, by ring⟩

/-- Witness for C4 at a concrete viewport of 400 by 300 and a card of 800 by
600. -/
theorem C4_layout_containment_witness :
    RealPic.cardScale 400 300 800 600 = min ((400 : ℚ) / 800) (300 / 600) ∧
    (RealPic._applyLayout 400 300 800 600).1 ≤ 400 ∧
    (RealPic._applyLayout 400 300 800 600).2 ≤ 300 ∧
    ((RealPic._applyLayout 400 300 800 600).1 = 400 ∨
      (RealPic._applyLayout 400 300 800 600).2 = 300) ∧
    (RealPic._applyLayout 400 300 800 600).1 * 600 = (RealPic._applyLayout 400 300 800 600).2 * 800 :=
  C4_layout_containment 400 300 800 600 (by norm_num) (by norm_num) (by norm_num) (by norm_num)

/-! ## C6: flip reentrancy -/

/-- C6: while a flip animation is in progress flip is a no-op leaving the
whole state unchanged; consequently two flips inside one animation window
toggle the flipped flag exactly once, and after the window elapses the
flipped flag differs from the pre-call value by exactly one toggle. -/
theorem C6_flip_reentrancy :
    (∀ s : PState, s.isAnimating = true → RealPic.flip s = s) ∧
    (∀ s : PState, s.isAnimating = false →
      RealPic.flip (RealPic.flip s) = RealPic.flip s ∧
      (RealPic.flipTimeout (RealPic.flip (RealPic.flip s))).isFlipped = !s.isFlipped ∧
      (RealPic.flipTimeout (RealPic.flip (RealPic.flip s))).isAnimating = false) := by
  constructor
  · intro s h
    simp [RealPic.flip, h]
  · intro s h
    simp [RealPic.flip, RealPic.flipTimeout, h]

/-- Witness for C6: both branches instantiated at concrete states. -/
theorem C6_flip_reentrancy_witness :
    RealPic.flip { initialPState with isAnimating := true } =
      { initialPState with isAnimating := true } ∧
    (RealPic.flip (RealPic.flip initialPState) = RealPic.flip initialPState ∧
      (RealPic.flipTimeout (RealPic.flip (RealPic.flip initialPState))).isFlipped =
        !initialPState.isFlipped ∧
      (RealPic.flipTimeout (RealPic.flip (RealPic.flip initialPState))).isAnimating = false) :=
  ⟨C6_flip_reentrancy.1 { initialPState with isAnimating := true } rfl,
   C6_flip_reentrancy.2 initialPState rfl⟩

/-! ## C7: hide then show presents the front face -/

/-- C7: for every controller state, hide followed by show presents the front
face: the flipped flag is false and the flipped class is absent, because
hide unconditionally performs reset and reset forces the flipped flag to
false without touching the animation flag. -/
theorem C7_hide_show_front :
    (∀ s : PState,
      (RealPic.show (RealPic.hide s)).isFlipped = false ∧
      (RealPic.show (RealPic.hide s)).flippedClass = false ∧
      (RealPic.hide s).isFlipped = false ∧
      (RealPic.hide s).flippedClass = false) ∧
    (∀ s : PState,
      (RealPic.reset s).isFlipped = false ∧
      (RealPic.reset s).flippedClass = false ∧
      (RealPic.reset s).isAnimating = s.isAnimating) := by
  constructor
  · intro s
    simp [RealPic.show, RealPic.hide, RealPic.reset]
  · intro s
    simp [RealPic.reset]


/-! ## C8: back inherits front sizes -/

/-- C8: when the raw back width (respectively height) is unset while the raw
front width (respectively height) is set, normalization copies the front
value onto the back side in a single-level propagation; in particular the
spec example inherits 800 by 600. -/
theorem C8_back_inherits_front :
    (∀ (raw : RawConfig) (base : String) (w : ℚ),
      (raw.back.getD {}).width = none → (raw.front.getD {}).width = some w →
      (ConfigParser.parse raw base).back.width = some w) ∧
    (∀ (raw : RawConfig) (base : String) (h : ℚ),
      (raw.back.getD {}).height = none → (raw.front.getD {}).height = some h →
      (ConfigParser.parse raw base).back.height = some h) ∧
    (ConfigParser.parse
      { front := some { width := some 800, height := some 600 }, back := some {} }
      "/themes/x/").back.width = some 800 ∧
    (ConfigParser.parse
      { front := some { width := some 800, height := some 600 }, back := some {} }
      "/themes/x/").back.height = some 600 := by
  have HW : ∀ (raw : RawConfig) (base : String) (w : ℚ),
      (raw.back.getD {}).width = none → (raw.front.getD {}).width = some w →
      (ConfigParser.parse raw base).back.width = some w := by
    intro raw base w hb hf
    rw [parse_back_width, hb, hf]
    simp
  have HH : ∀ (raw : RawConfig) (base : String) (h : ℚ),
      (raw.back.getD {}).height = none → (raw.front.getD {}).height = some h →
      (ConfigParser.parse raw base).back.height = some h := by
    intro raw base h hb hf
    rw [parse_back_height, hb, hf]
    simp
  exact ⟨HW, HH, HW _ _ _ rfl rfl, HH _ _ _ rfl rfl⟩

/-- Witness for C8: the inheritance applied at concrete descriptors. -/
theorem C8_back_inherits_front_witness :
    (ConfigParser.parse { front := some { width := some 640 }, back := none } "/t/").back.width =
      some 640 ∧
    (ConfigParser.parse { front := some { height := some 480 } } "/t/").back.height = some 480 :=
  ⟨C8_back_inherits_front.1 _ "/t/" 640 rfl rfl,
   C8_back_inherits_front.2.1 _ "/t/" 480 rfl rfl⟩

/-! ## C10: explicit zero dimensions survive, empty background does not -/

/-- C10: an explicit width or height of 0 survives normalization and
dimension resolution because those fields are defaulted with nullish checks:
0 is not treated as unset, is not replaced by the frame-image, content-image
or 800 by 600 fallback chain, and is not overwritten by the front value for
the back side; an explicitly empty background string IS replaced by the
default neutral color (truthiness defaulting); hence a zero resolved face
dimension is possible. -/
theorem C10_zero_dimension_preserved :
    (∀ sc : RawSide, (ConfigParser._parseSideConfig sc).width = sc.width ∧
      (ConfigParser._parseSideConfig sc).height = sc.height) ∧
    (∀ (raw : RawConfig) (base : String),
      (raw.back.getD {}).width = some 0 →
      (ConfigParser.parse raw base).back.width = some 0) ∧
    (∀ (config : Config) (imgs : LoadedImages),
      config.front.width = some 0 →
      (ConfigParser.getDimensions config imgs).front.width = 0) ∧
    (∀ sc : RawSide, sc.background = some "" →
      (ConfigParser._parseSideConfig sc).background = DEFAULT_BACKGROUND) ∧
    (ConfigParser.getDimensions
      (ConfigParser.parse { front := some { width := some 0, height := some 0 } } "/t/")
      { frontFrame := some ⟨1024, 768⟩ }).front = ⟨0, 0⟩ := by
  refine ⟨fun sc => ⟨psc_width sc, psc_height sc⟩, ?_, ?_, ?_, ?_⟩
  · intro raw base hb
    rw [parse_back_width, hb]
    simp
  · intro config imgs h
    obtain ⟨ff, bf, c0⟩ := imgs
    rcases hH : config.front.height with _ | fh <;> cases ff <;> cases c0 <;>
      simp [ConfigParser.getDimensions, h, hH]
  · intro sc h
    simp only [ConfigParser._parseSideConfig]
    split
    · rfl
    · rw [h]
      simp [jsOrStr]
  · have h1 : (ConfigParser.parse { front := some { width := some 0, height := some 0 } }
        "/t/").front.width = some 0 := by
      rw [parse_front_width]
      simp
    have h2 : (ConfigParser.parse { front := some { width := some 0, height := some 0 } }
        "/t/").front.height = some 0 := by
      rw [parse_front_height]
      simp
    simp [ConfigParser.getDimensions, h1, h2]

/-- Witness for C10: the hypothesized parts applied at concrete inputs. -/
theorem C10_zero_dimension_preserved_witness :
    (ConfigParser.parse { front := some { width := some 800 }, back := some { width := some 0 } }
      "/t/").back.width = some 0 ∧
    (ConfigParser.getDimensions
      { front := { image := none, background := "#eeeeee", width := some 0, height := some 600 },
        back := { image := none, background := "#eeeeee", width := none, height := none },
        contentArea := [] }
      { frontFrame := some ⟨1024, 768⟩ }).front.width = 0 ∧
    (ConfigParser._parseSideConfig { background := some "" }).background = DEFAULT_BACKGROUND :=
  ⟨C10_zero_dimension_preserved.2.1 _ "/t/" rfl,
   C10_zero_dimension_preserved.2.2.1 _ _ rfl,
   C10_zero_dimension_preserved.2.2.2.1 _ rfl⟩

/-! ## C3: the four-step dimension fallback chain -/

/-- C3: getDimensions resolves the front size by the four-step fallback
chain (explicit config size, then front frame image size, then content_0
image size, then the fixed 800 by 600 default), independently per axis; the
realpic size always equals the resolved front size, the back size defaults
per axis to the resolved front value, and with no explicit sizes and an
empty loadedImages map every size is 800 by 600. -/
theorem C3_dimensions_fallback_chain :
    (∀ (config : Config) (imgs : LoadedImages),
      (ConfigParser.getDimensions config imgs).realpic =
        (ConfigParser.getDimensions config imgs).front) ∧
    (∀ (config : Config) (imgs : LoadedImages),
      (ConfigParser.getDimensions config imgs).front.width =
        axisFallback config.front.width (imgs.frontFrame.map LoadedImage.width)
          (imgs.content_0.map LoadedImage.width) 800 ∧
      (ConfigParser.getDimensions config imgs).front.height =
        axisFallback config.front.height (imgs.frontFrame.map LoadedImage.height)
          (imgs.content_0.map LoadedImage.height) 600 ∧
      (ConfigParser.getDimensions config imgs).back.width =
        config.back.width.getD ((ConfigParser.getDimensions config imgs).front.width) ∧
      (ConfigParser.getDimensions config imgs).back.height =
        config.back.height.getD ((ConfigParser.getDimensions config imgs).front.height)) ∧
    ConfigParser.getDimensions (ConfigParser.parse {} "/themes/x/") {} =
      { front := ⟨800, 600⟩, back := ⟨800, 600⟩, realpic := ⟨800, 600⟩ } := by
  refine ⟨fun config imgs => rfl, ?_, ?_⟩
  · intro config imgs
    obtain ⟨ff, bf, c0⟩ := imgs
    rcases h1 : config.front.width with _ | w <;>
      rcases h2 : config.front.height with _ | fh <;>
        cases ff <;> cases c0 <;>
          simp [ConfigParser.getDimensions, axisFallback, h1, h2]
  · have hw : (ConfigParser.parse {} "/themes/x/").front.width = none := by
      rw [parse_front_width]
      simp
    have hh : (ConfigParser.parse {} "/themes/x/").front.height = none := by
      rw [parse_front_height]
      simp
    have hbw : (ConfigParser.parse {} "/themes/x/").back.width = none := by
      rw [parse_back_width]
      simp
    have hbh : (ConfigParser.parse {} "/themes/x/").back.height = none := by
      rw [parse_back_height]
      simp
    simp [ConfigParser.getDimensions, hw, hh, hbw, hbh]


/-! ## C2: the synthesized default content areas -/

/-- C2: evaluation of the normalizer at the failing input: normalizing the
empty descriptor synthesizes exactly the two bare areas (area 0 on front,
area 1 on back) whose geometry fields x, y, width and height are all unset
rather than the documented full-face and 80 percent layouts, while both
sides do get the default neutral background and no image. -/
theorem C2_default_areas_lack_geometry :
    (ConfigParser.parse {} "/themes/x/").contentArea = defaultContentAreas ∧
    defaultContentAreas.map ContentArea.area = [0, 1] ∧
    defaultContentAreas.map ContentArea.side = ["front", "back"] ∧
    ((ConfigParser.parse {} "/themes/x/").contentArea.map ContentArea.x) = [none, none] ∧
    ((ConfigParser.parse {} "/themes/x/").contentArea.map ContentArea.y) = [none, none] ∧
    ((ConfigParser.parse {} "/themes/x/").contentArea.map ContentArea.width) = [none, none] ∧
    ((ConfigParser.parse {} "/themes/x/").contentArea.map ContentArea.height) = [none, none] ∧
    (ConfigParser.parse {} "/themes/x/").front.background = DEFAULT_BACKGROUND ∧
    (ConfigParser.parse {} "/themes/x/").back.background = DEFAULT_BACKGROUND ∧
    (ConfigParser.parse {} "/themes/x/").front.image = none ∧
    (ConfigParser.parse {} "/themes/x/").back.image = none := by
  have hca := parse_contentArea ({} : RawConfig) "/themes/x/"
  have him := parse_images_none ({} : RawConfig) "/themes/x/" rfl rfl
  have hbg := parse_backgrounds ({} : RawConfig) "/themes/x/"
  rw [hca]
  refine ⟨rfl, rfl, rfl, rfl, rfl, rfl, rfl, ?_, ?_, him.1, him.2⟩
  · rw [hbg.1]
    rfl
  · rw [hbg.2]
    rfl

/-! ## C9: totality of normalization and warning-only validation -/

/-- Every element produced by mapIdxFrom satisfies any pointwise Boolean
property of the producing function. -/
theorem all_mapIdxFrom {α β : Type} (f : Nat → α → β) (p : β → Bool)
    (hp : ∀ i a, p (f i a) = true) :
    ∀ (i : Nat) (l : List α), (mapIdxFrom f i l).all p = true := by
  intro i l
  induction l generalizing i with
  | nil => rfl
  | cons a t ih => simp [mapIdxFrom, hp, ih]

/-- C9 counterexample: normalizing the empty raw descriptor produces content
areas whose position and fit fields are unset, refuting that normalization
always completes with a safe default for every field. -/
theorem C9_counterexample_bare_default_fields :
    ((ConfigParser.parse {} "/themes/x/").contentArea.map ContentArea.position) = [none, none] ∧
    ((ConfigParser.parse {} "/themes/x/").contentArea.map ContentArea.fit) = [none, none] := by
  rw [parse_contentArea]
  exact ⟨rfl, rfl⟩


/-! ## Agreement of the untyped throwing pipeline with the typed pipeline -/

/-- On a well-typed raw side, the untyped side parser agrees with the typed
one. -/
theorem pscU_strip (s : RawSideU) (h : RawSideU.wellTyped s = true) :
    ConfigParser._parseSideConfigU s =
      SideConfig.toU (ConfigParser._parseSideConfig s.strip) := by
  rcases s with ⟨img, bg, w, hh⟩
  rcases img with _ | v
  · simp [ConfigParser._parseSideConfigU, ConfigParser._parseSideConfig, RawSideU.strip,
      SideConfig.toU, jsTruthyImg, jsTruthyStr, apply_ite]
    split_ifs <;> rfl
  · rcases v with p | q
    · by_cases hp : p = "" <;>
        simp [ConfigParser._parseSideConfigU, ConfigParser._parseSideConfig, RawSideU.strip,
          SideConfig.toU, jsTruthyImg, jsTruthyStr, apply_ite, hp] <;>
        split_ifs <;> rfl
    · simp [RawSideU.wellTyped] at h

/-- On an all-object entry list, the throwing map agrees with the typed
map. -/
theorem mapIdxFromE_strip (l : List RawAreaEntry) :
    ∀ i : Nat, l.all RawAreaEntry.isObj = true →
      mapIdxFromE ConfigParser.parseAreaAtE i l =
        Except.ok (mapIdxFrom ConfigParser.parseAreaAt i (l.map RawAreaEntry.strip)) := by
  induction l with
  | nil => intro i _; rfl
  | cons a t ih =>
    intro i h
    rcases a with a | _
    · simp only [List.all_cons, Bool.and_eq_true] at h
      simp [mapIdxFromE, mapIdxFrom, ConfigParser.parseAreaAtE, RawAreaEntry.strip,
        ih (i + 1) h.2]
    · simp [List.all_cons, RawAreaEntry.isObj] at h

/-- On an all-object entry list, the throwing content-area parser agrees
with the typed one. -/
theorem parseContentAreasE_strip (l : List RawAreaEntry)
    (h : l.all RawAreaEntry.isObj = true) :
    ConfigParser._parseContentAreasE l =
      Except.ok (ConfigParser._parseContentAreas (l.map RawAreaEntry.strip)) := by
  cases l with
  | nil => rfl
  | cons a t =>
    simp [ConfigParser._parseContentAreasE, ConfigParser._parseContentAreas,
      mapIdxFromE_strip (a :: t) 0 h]

/-- The dependency pass commutes with the embedding of typed configs. -/
theorem rdepU_toU (c : Config) :
    ConfigParser._resolveDependenciesU (Config.toU c) =
      Config.toU (ConfigParser._resolveDependencies c) := by
  rcases c with ⟨⟨fi, fbg, fw, fh⟩, ⟨bi, bbg, bw, bh⟩, ca⟩
  by_cases h1 : bw = none <;> by_cases h2 : bh = none <;>
    simp [ConfigParser._resolveDependenciesU, ConfigParser._resolveDependencies,
      Config.toU, SideConfig.toU, h1, h2]

/-- The image rewrite never throws on a string-or-absent image and agrees
with the typed truthiness-guarded rewrite. -/
theorem resolveImageValE_toU (img : Option String) (base : String) :
    ConfigParser._resolveImageValE (img.map JsImageVal.str) base =
      Except.ok ((if jsTruthyStr img then
        img.map (fun p => ConfigParser._resolvePath p base) else img).map JsImageVal.str) := by
  rcases img with _ | p
  · simp [ConfigParser._resolveImageValE, jsTruthyImg, jsTruthyStr]
  · by_cases hp : p = "" <;>
      simp [ConfigParser._resolveImageValE, jsTruthyImg, jsTruthyStr, hp]

/-- The path resolution pass never throws on typed configs and agrees with
the typed pass. -/
theorem ripE_toU (c : Config) (tb : String) :
    ConfigParser._resolveImagePathsE (Config.toU c) tb =
      Except.ok (Config.toU (ConfigParser._resolveImagePaths c tb)) := by
  rcases c with ⟨⟨fi, fbg, fw, fh⟩, ⟨bi, bbg, bw, bh⟩, ca⟩
  by_cases h0 : tb = ""
  · simp [ConfigParser._resolveImagePathsE, ConfigParser._resolveImagePaths, h0]
  · rcases fi with _ | p <;> rcases bi with _ | q
    · simp [ConfigParser._resolveImagePathsE, ConfigParser._resolveImagePaths,
        ConfigParser._resolveImageValE, Config.toU, SideConfig.toU, jsTruthyImg,
        jsTruthyStr, h0]
    · by_cases hq : q = "" <;>
        simp [ConfigParser._resolveImagePathsE, ConfigParser._resolveImagePaths,
          ConfigParser._resolveImageValE, Config.toU, SideConfig.toU, jsTruthyImg,
          jsTruthyStr, h0, hq]
    · by_cases hp : p = "" <;>
        simp [ConfigParser._resolveImagePathsE, ConfigParser._resolveImagePaths,
          ConfigParser._resolveImageValE, Config.toU, SideConfig.toU, jsTruthyImg,
          jsTruthyStr, h0, hp]
    · by_cases hp : p = "" <;> by_cases hq : q = "" <;>
        simp [ConfigParser._resolveImagePathsE, ConfigParser._resolveImagePaths,
          ConfigParser._resolveImageValE, Config.toU, SideConfig.toU, jsTruthyImg,
          jsTruthyStr, h0, hp, hq]

/-- Strip commutes with the front-side default. -/
theorem strip_front_getD (r : RawConfigU) :
    (RawConfigU.strip r).front.getD {} = RawSideU.strip (r.front.getD {}) := by
  rcases r with ⟨f, b, ca⟩
  cases f <;> rfl

/-- Strip commutes with the back-side default. -/
theorem strip_back_getD (r : RawConfigU) :
    (RawConfigU.strip r).back.getD {} = RawSideU.strip (r.back.getD {}) := by
  rcases r with ⟨f, b, ca⟩
  cases b <;> rfl

/-- Strip commutes with the content-area default. -/
theorem strip_contentArea_getD (r : RawConfigU) :
    (RawConfigU.strip r).contentArea.getD [] =
      (r.contentArea.getD []).map RawAreaEntry.strip := by
  rcases r with ⟨f, b, ca⟩
  cases ca <;> rfl

/-- A ConfigU literal over embedded sides is the embedding of the Config
literal. -/
theorem configU_mk_toU (f b : SideConfig) (ca : List ContentArea) :
    ({ front := SideConfig.toU f, back := SideConfig.toU b, contentArea := ca } : ConfigU) =
      Config.toU { front := f, back := b, contentArea := ca } := rfl

/-- On every well-typed raw descriptor, the throwing normalization pipeline
succeeds and returns exactly what the typed pipeline returns. -/
theorem parseE_wellTyped (raw : RawConfigU) (base : String)
    (h : RawConfigU.wellTyped raw = true) :
    ConfigParser.parseE raw base =
      Except.ok (Config.toU (ConfigParser.parse (RawConfigU.strip raw) base)) := by
  simp only [RawConfigU.wellTyped, Bool.and_eq_true] at h
  obtain ⟨⟨hf, hb⟩, hca⟩ := h
  simp only [ConfigParser.parseE, ConfigParser.parse,
    strip_front_getD, strip_back_getD, strip_contentArea_getD]
  rw [parseContentAreasE_strip _ hca]
  dsimp only
  rw [pscU_strip _ hf, pscU_strip _ hb, configU_mk_toU, rdepU_toU, ripE_toU]


/-! ## C9: boundary of normalization totality, warning-only validation -/

/-- C9 amended: on every raw theme descriptor whose fields carry the JSON
types the parser expects (side images strings or absent, every content-area
entry an object) normalization never throws and completes exactly as the
typed pipeline does; outside that shape normalization itself can abort with
a TypeError, as on a null content-area array element (read at area.area) or
on a truthy non-string side image (passed to path.startsWith). Both side
backgrounds always receive a nonempty safe default; every field of every
content area from an author-supplied non-empty list receives a safe default,
while a missing or empty list synthesizes two areas carrying only area and
side; the structural validation step only logs warnings, exactly when area 0
is not on the front or area 1 is not on the back, and never fails or alters
the config. -/
theorem C9_normalization_boundary :
    (∀ (raw : RawConfigU) (base : String), RawConfigU.wellTyped raw = true →
      ConfigParser.parseE raw base =
        Except.ok (Config.toU (ConfigParser.parse (RawConfigU.strip raw) base))) ∧
    ConfigParser.parseE { contentArea := some [RawAreaEntry.nullEntry] } "/themes/x/" =
      Except.error "TypeError: Cannot read properties of null (reading area)" ∧
    ConfigParser.parseE { front := some { image := some (JsImageVal.num 5) } } "/themes/x/" =
      Except.error "TypeError: path.startsWith is not a function" ∧
    (∀ (raw : RawConfig) (base : String),
      (ConfigParser.parse raw base).front.background ≠ "" ∧
      (ConfigParser.parse raw base).back.background ≠ "") ∧
    (∀ (raw : RawConfig) (base : String) (l : List RawArea),
      raw.contentArea = some l → l ≠ [] →
      ((ConfigParser.parse raw base).contentArea.all (fun a =>
        a.x.isSome && a.y.isSome && a.width.isSome && a.height.isSome &&
        a.position.isSome && a.fit.isSome && a.style.isSome)) = true) ∧
    (∀ (raw : RawConfig) (base : String), raw.contentArea.getD [] = [] →
      (ConfigParser.parse raw base).contentArea = defaultContentAreas) ∧
    (∀ config : Config,
      ConfigParser._validate config = [] ↔
        ((config.contentArea.get? 0).map ContentArea.side = some "front" ∧
         (config.contentArea.get? 1).map ContentArea.side = some "back")) := by
  refine ⟨parseE_wellTyped, rfl, ?_, ?_, ?_, ?_, ?_⟩
  · have h5 : jsTruthyImg (some (JsImageVal.num 5)) = true := by
      simp only [jsTruthyImg, decide_eq_true_eq]
      norm_num
    simp [ConfigParser.parseE, ConfigParser._parseContentAreasE,
      ConfigParser._parseSideConfigU, ConfigParser._resolveDependenciesU,
      ConfigParser._resolveImagePathsE, ConfigParser._resolveImageValE, h5,
      jsTruthyStr, jsTruthyNum, jsOrStr]
  · intro raw base
    constructor
    · rw [(parse_backgrounds raw base).1]
      exact psc_background_ne_empty _
    · rw [(parse_backgrounds raw base).2]
      exact psc_background_ne_empty _
  · intro raw base l hl hne
    rw [parse_contentArea, hl]
    cases l with
    | nil => exact absurd rfl hne
    | cons a t =>
      simp only [Option.getD_some, ConfigParser._parseContentAreas, List.isEmpty_cons,
        Bool.false_eq_true, if_false]
      exact all_mapIdxFrom _ _ (fun i a => by simp [ConfigParser.parseAreaAt]) 0 _
  · intro raw base h
    rw [parse_contentArea, h]
    rfl
  · intro config
    unfold ConfigParser._validate
    split_ifs <;> simp_all

/-- Witness for C9: the hypothesized parts applied at concrete descriptors. -/
theorem C9_normalization_boundary_witness :
    ConfigParser.parseE { front := some { image := some (JsImageVal.str "frame.png") } } "/t/" =
      Except.ok (Config.toU (ConfigParser.parse
        (RawConfigU.strip { front := some { image := some (JsImageVal.str "frame.png") } })
        "/t/")) ∧
    ((ConfigParser.parse { contentArea := some [{}] } "/t/").contentArea.all (fun a =>
      a.x.isSome && a.y.isSome && a.width.isSome && a.height.isSome &&
      a.position.isSome && a.fit.isSome && a.style.isSome)) = true ∧
    (ConfigParser.parse {} "/t/").contentArea = defaultContentAreas :=
  ⟨C9_normalization_boundary.1 _ "/t/" rfl,
   C9_normalization_boundary.2.2.2.2.1 _ "/t/" [{}] rfl (by simp),
   C9_normalization_boundary.2.2.2.2.2.1 {} "/t/" rfl⟩


/-! ## C5: the exception boundary of the presentation component -/

/-- C5 counterexample: setOptions on a not yet initialized instance with a
missing themePath rejects to the caller even though a mount container was
supplied, so the container precondition is not the only failure surfaced to
the caller. -/
theorem C5_counterexample_first_init_rejects :
    RealPic.setOptionsE false none FetchOutcome.fail [] =
      Except.error "themePath is required in options" := rfl

/-- C5 amended: no operation of the presentation component throws to the
caller except the constructor and setOptions on a not yet initialized
instance: the constructor fails fast when the mount container is missing,
and first-initialization setOptions rejects when options.themePath is
missing or empty and can also reject with a TypeError when the loaded theme
config reaches the uncaught render stage with a content area whose side is
neither front nor back, or with a text-hosting area whose position is off
the alignMap enum (the _init path has no catch); when the loaded config has
only front or back sides and on-enum positions for its text areas, first
initialization succeeds. On an initialized instance every update failure is
caught and logged, and config loading itself never rejects once themePath
is supplied: fetch failures and TypeErrors thrown by the normalizer are
recovered inside _loadConfig by parsing the empty descriptor. -/
theorem C5_first_init_exception_boundary :
    (∀ (tp : Option String) (f : FetchOutcome) (ta : List Nat),
      RealPic.setOptionsE true tp f ta = Except.ok ()) ∧
    (∀ (f : FetchOutcome) (ta : List Nat),
      RealPic.setOptionsE false none f ta = Except.error "themePath is required in options") ∧
    (∀ (f : FetchOutcome) (ta : List Nat),
      RealPic.setOptionsE false (some "") f ta =
        Except.error "themePath is required in options") ∧
    (∀ (s : String) (f : FetchOutcome), s ≠ "" →
      exceptOk (RealPic._loadConfigE (some s) f) = true) ∧
    (∀ (s : String) (raw : RawConfigU) (e : String), s ≠ "" →
      ConfigParser.parseE raw s = Except.error e →
      RealPic._loadConfigE (some s) (FetchOutcome.ok raw) =
        Except.ok (Config.toU (ConfigParser.parse {} s))) ∧
    (∀ (s : String) (f : FetchOutcome) (ta : List Nat) (c : ConfigU), s ≠ "" →
      RealPic._loadConfigE (some s) f = Except.ok c →
      (c.contentArea.all (fun a => a.side == "front" || a.side == "back")) = true →
      ((c.contentArea.filter (fun a => ta.contains a.area)).all
        (fun a => alignMapKeys.contains (jsOrStr a.position "center"))) = true →
      RealPic.setOptionsE false (some s) f ta = Except.ok ()) ∧
    RealPic.setOptionsE false (some "/themes/x/")
      (FetchOutcome.ok { contentArea := some [RawAreaEntry.obj { side := some "top" }] }) [] =
      Except.error "TypeError: Cannot read properties of undefined (reading width)" ∧
    RealPic.setOptionsE false (some "/themes/x/")
      (FetchOutcome.ok { contentArea := some [RawAreaEntry.obj { position := some "diagonal" }] })
      [0] =
      Except.error "TypeError: alignMap destructuring of undefined" ∧
    RealPic.constructorE none = Except.error "Container element is required" ∧
    RealPic.constructorE (some ()) = Except.ok initialPState := by
  refine ⟨?_, fun f ta => rfl, fun f ta => rfl, ?_, ?_, ?_, rfl, rfl, rfl, rfl⟩
  · intro tp f ta
    cases h : RealPic._loadAndRenderE tp f ta <;> simp [RealPic.setOptionsE, h]
  · intro s f hs
    cases f with
    | fail => simp [RealPic._loadConfigE, jsTruthyStr, hs, exceptOk]
    | ok raw =>
      cases h2 : ConfigParser.parseE raw s <;>
        simp [RealPic._loadConfigE, jsTruthyStr, hs, h2, exceptOk]
  · intro s raw e hs hp
    simp [RealPic._loadConfigE, jsTruthyStr, hs, hp]
  · intro s f ta c hs hc h1 h2
    simp [RealPic.setOptionsE, RealPic._loadAndRenderE, hc, RealPic.renderE, h1]
    intro x hx hxa
    have hmem : x ∈ List.filter (fun a => ta.contains a.area) c.contentArea :=
      List.mem_filter.mpr ⟨hx, by simpa using hxa⟩
    have hall := (List.all_eq_true.mp h2) x hmem
    simpa using hall

/-- Witness for C5: the hypothesized parts applied at concrete inputs. -/
theorem C5_first_init_exception_boundary_witness :
    RealPic.setOptionsE true none FetchOutcome.fail [] = Except.ok () ∧
    exceptOk (RealPic._loadConfigE (some "/t/") FetchOutcome.fail) = true ∧
    RealPic._loadConfigE (some "/t/")
      (FetchOutcome.ok { contentArea := some [RawAreaEntry.nullEntry] }) =
      Except.ok (Config.toU (ConfigParser.parse {} "/t/")) ∧
    RealPic.setOptionsE false (some "/t/") FetchOutcome.fail [] = Except.ok () :=
  ⟨C5_first_init_exception_boundary.1 none FetchOutcome.fail [],
   C5_first_init_exception_boundary.2.2.2.1 "/t/" FetchOutcome.fail (by decide),
   C5_first_init_exception_boundary.2.2.2.2.1 "/t/" _ _ (by decide) rfl,
   C5_first_init_exception_boundary.2.2.2.2.2.1 "/t/" FetchOutcome.fail []
     (Config.toU (ConfigParser.parse {} "/t/")) (by decide) rfl rfl rfl⟩

end RP
